import Mathlib

/-!
Shallow embedding of the ProjectForge repository (src/project_forge and src/main.py),
covering the task-output extractors, the exporters, the HTML template and the
core workflow runner, together with theorems settling the specification claims.
-/

set_option maxHeartbeats 1000000

namespace ProjectForge

/-! ## Exceptions and task records (crewai `Task` objects as the extractors see them) -/

/-- The class of a Python exception, as far as the extractors distinguish them:
`except ValueError` catches exactly the `valueError` kind. -/
inductive ExcKind where
  | valueError
  | other
deriving DecidableEq

/-- The state of `task.output` on a stage-execution record.  The extractor reads it
with `task.output.raw if hasattr(task.output, 'raw') else str(task.output)`
(task_extractors.py line 47 and 107): a `None` output stringifies to `"None"`,
an object with a `raw` attribute yields that attribute, any other object yields
its `str` rendering, and the access/stringification may itself raise. -/
inductive PyOutput where
  | nothing
  | withRaw (raw : String)
  | plain (s : String)
  | raises (k : ExcKind)
deriving DecidableEq

/-- A crewai agent, as far as extraction uses it: only its `role` string. -/
structure Agent where
  role : String
deriving DecidableEq

/-- A stage-execution record (`crewai.Task` after a run): an optional agent
(`if not task.agent: continue` skips records whose agent is `None`) and the
state of its `output` attribute. -/
structure TaskRec where
  agent : Option Agent
  output : PyOutput
deriving DecidableEq

/-- Evaluation of `task.output.raw if hasattr(task.output, 'raw') else str(task.output)`:
either the text obtained, or the exception kind raised by the access. -/
def readOutput : PyOutput → Except ExcKind String
  | .nothing => .ok "None"
  | .withRaw r => .ok r
  | .plain s => .ok s
  | .raises k => .error k

/-- `isPre n h` is true when the character list `n` is a prefix of `h`. -/
def isPre : List Char → List Char → Bool
  | [], _ => true
  | _ :: _, [] => false
  | a :: n, b :: h => a == b && isPre n h

/-- `occursIn n h` is true when `n` occurs as a contiguous sublist of `h`. -/
def occursIn : List Char → List Char → Bool
  | n, [] => n.isEmpty
  | n, c :: h => isPre n (c :: h) || occursIn n (c :: h).tail

/-- Python's `needle in hay` on strings: contiguous-substring containment. -/
def containsSub (hay needle : String) : Bool :=
  occursIn needle.data hay.data

/-! ## The role registry (task_extractors.py lines 28-34 and 88-94) -/

/-- The `role_mapping` dict, in insertion order (Python dicts iterate in
insertion order): full role name to short output key. -/
def role_mapping : List (String × String) :=
  [("Requirements Intake Specialist", "intake"),
   ("Technical Architect", "architect"),
   ("Senior Quality Auditor", "quality"),
   ("Technical Synthesizer", "synthesis"),
   ("Project Manager", "manager")]

/-- `set(role_mapping.values())`, kept as a duplicate-free list. -/
def requiredKeys : List String := role_mapping.map Prod.snd

/-- Lines 45-49 / 104-111: walk `role_mapping` in order and take the first entry
whose full role name is contained in the record's declared role string. -/
def matchEntry (agent_role : String) : Option (String × String) :=
  role_mapping.find? (fun p => containsSub agent_role p.1)

/-- Membership of a string in a list of strings (Python `in` on the key sets). -/
def listHas : List String → String → Bool
  | [], _ => false
  | k' :: t, k => (k == k') || listHas t k

/-- Python dict assignment `d[k] = v`: update in place when the key is present
(the stored key object is unchanged), append otherwise. -/
def dictSet {α : Type} : List (String × α) → String → α → List (String × α)
  | [], k, v => [(k, v)]
  | (k', v') :: rest, k, v =>
    if k' == k then (k', v) :: rest else (k', v') :: dictSet rest k v

/-! ## Strict extraction (`extract_task_outputs_by_role`, lines 28-63) -/

/-- A Python exception as raised by the extractors: the missing-roles
`ValueError` of lines 56-61 (carrying the `missing_roles` and `found_roles`
sets rendered into its message), or an exception propagated from an output read. -/
inductive PyExc where
  | missingRoles (missing found : List String)
  | readExc (k : ExcKind)
deriving DecidableEq

/-- Which exceptions `except ValueError` (line 86) catches. -/
def PyExc.isValueError : PyExc → Bool
  | .missingRoles _ _ => true
  | .readExc .valueError => true
  | .readExc .other => false

/-- The `for task in tasks` loop of lines 38-49: skip records without an agent,
attribute the record's output text to the first matching registry key, and
propagate any exception raised while reading the output (the read at line 47
is not guarded). -/
def strictLoop : List TaskRec → List (String × String) → Except ExcKind (List (String × String))
  | [], acc => .ok acc
  | t :: ts, acc =>
    match t.agent with
    | none => strictLoop ts acc
    | some a =>
      match matchEntry a.role with
      | none => strictLoop ts acc
      | some p =>
        match readOutput t.output with
        | .error k => .error k
        | .ok s => strictLoop ts (dictSet acc p.2 s)

/-- `extract_task_outputs_by_role` (task_extractors.py lines 28-63): run the
extraction loop, then fail with the missing-roles `ValueError` when some
required key was not found. -/
def extract_task_outputs_by_role (tasks : List TaskRec) :
    Except PyExc (List (String × String)) :=
  match strictLoop tasks [] with
  | .error k => .error (.readExc k)
  | .ok outputs =>
    let found := outputs.map Prod.fst
    let missing := requiredKeys.filter (fun r => !(listHas found r))
    if missing.isEmpty then .ok outputs
    else .error (.missingRoles missing found)

/-! ## Safe extraction (`extract_task_outputs_safe`, lines 66-113) -/

/-- The fallback initialization `{key: None for key in role_mapping.values()}`
(line 96). -/
def initOutputs : List (String × Option String) :=
  role_mapping.map (fun p => (p.2, (none : Option String)))

/-- The fallback loop of lines 98-111: same walk, but each output read is
guarded; a read that raises stores `None` for that key. -/
def fallbackLoop : List TaskRec → List (String × Option String) → List (String × Option String)
  | [], acc => acc
  | t :: ts, acc =>
    match t.agent with
    | none => fallbackLoop ts acc
    | some a =>
      match matchEntry a.role with
      | none => fallbackLoop ts acc
      | some p =>
        fallbackLoop ts
          (match readOutput t.output with
           | .ok s => dictSet acc p.2 (some s)
           | .error _ => dictSet acc p.2 none)

/-- `extract_task_outputs_safe` (task_extractors.py lines 66-113): try strict
extraction; `except ValueError` falls back to the best-effort pass; any other
exception (a non-`ValueError` raised while reading an output during the strict
pass) propagates to the caller. -/
def extract_task_outputs_safe (tasks : List TaskRec) :
    Except PyExc (List (String × Option String)) :=
  match extract_task_outputs_by_role tasks with
  | .ok outputs => .ok (outputs.map (fun p => (p.1, some p.2)))
  | .error e => if e.isValueError then .ok (fallbackLoop tasks initOutputs) else .error e

/-! ## Exporters (exporters.py) -/

/-- `"=" * 80` (exporters.py line 39). -/
def eqLine80 : String := String.mk (List.replicate 80 '=')

/-- `generate_text_content` (exporters.py lines 20-56).  The `now` parameter is
the rendering of `datetime.now().strftime('%B %d, %Y at %I:%M %p')` at line 37;
the clock is an input of the embedding.  The `timestamp` parameter appears in
the source signature but is unused by the body, exactly as in the source. -/
def generate_text_content (now timestamp user_input ba_output architect_output
    qa_output synthesis_output pm_output : String) : String :=
  let content := "ProjectForge Analysis\n"
  let content := content ++ ("Generated: " ++ now ++ "\n")
  let content := content ++ ("Project: " ++ user_input ++ "\n")
  let content := content ++ (eqLine80 ++ "\n\n")
  let content := content ++ "## Business Requirements\n\n"
  let content := content ++ (ba_output ++ "\n\n")
  let content := content ++ "## Technical Design\n\n"
  let content := content ++ (architect_output ++ "\n\n")
  let content := content ++ "## Risk Assessment\n\n"
  let content := content ++ (qa_output ++ "\n\n")
  let content := content ++ "## Technical Synthesis\n\n"
  let content := content ++ (synthesis_output ++ "\n\n")
  let content := content ++ "## Executive Summary & Roadmap\n\n"
  let content := content ++ (pm_output ++ "\n")
  content

/-- Behaviour of the external HTML-to-PDF converter (weasyprint) on a given
HTML string: the import may fail (`ImportError`), the conversion may raise any
other exception, or it produces PDF bytes. -/
inductive PdfOutcome where
  | importError
  | renderError
  | ok (pdf : List Nat)

/-- `generate_pdf_bytes` (exporters.py lines 59-76): both `except ImportError`
and `except Exception` return `None`; the function is total and never raises. -/
def generate_pdf_bytes (convert : String → PdfOutcome) (html_content : String) :
    Option (List Nat) :=
  match convert html_content with
  | .ok pdf => some pdf
  | .importError => none
  | .renderError => none

/-- `save_pdf_output` (exporters.py lines 124-144): returns `True` on success;
`except ImportError` and `except Exception` print a warning and return `False`;
the function is total and never raises. -/
def save_pdf_output (convert : String → PdfOutcome)
    (pdf_output_file html_content : String) : Bool :=
  match convert html_content with
  | .ok _ => true
  | .importError => false
  | .renderError => false

/-! ## The HTML template (templates.py lines 6-294)

The body of `generate_html_template` is a single f-string; the eight literal
fragments below are its text between the interpolation holes, in order
(`{timestamp}` in the title, `{datetime.now().strftime(...)}` in the
"Generated:" line, then the five section fragments). -/

/-- Literal fragment 0 of the f-string of templates.py lines 20-294. -/
def htmlPart0 : String :=
  "\n<!DOCTYPE html>\n<html lang=\"en\">\n<head>\n    <meta charset=\"UTF-8\">\n    <meta name=\"viewport\" content=\"width=device-width, initial-scale=1.0\">\n    <title>ProjectForge Analysis - "

/-- Literal fragment 1 of the f-string of templates.py lines 20-294. -/
def htmlPart1 : String :=
  "</title>\n    <style>\n        * \x7b\n            margin: 0;\n            padding: 0;\n            box-sizing: border-box;\n        \x7d\n        \n        body \x7b\n            font-family: -apple-system, BlinkMacSystemFont, \x27Segoe UI\x27, Roboto, Oxygen, Ubuntu, Cantarell, sans-serif;\n            line-height: 1.6;\n            color: #333;\n            background: #f5f5f5;\n            padding: 20px;\n        \x7d\n        \n        .container \x7b\n            max-width: 1200px;\n            margin: 0 auto;\n            background: white;\n            padding: 40px;\n            border-radius: 8px;\n            box-shadow: 0 2px 10px rgba(0,0,0,0.1);\n        \x7d\n        \n        h1 \x7b\n            color: #1a73e8;\n            border-bottom: 3px solid #1a73e8;\n            padding-bottom: 10px;\n            margin-bottom: 30px;\n        \x7d\n        \n        .timestamp \x7b\n            color: #666;\n            font-size: 14px;\n            margin-bottom: 30px;\n        \x7d\n        \n        .section \x7b\n            margin-bottom: 30px;\n            border: 1px solid #e0e0e0;\n            border-radius: 8px;\n            overflow: hidden;\n        \x7d\n        \n        .section-header \x7b\n            background: linear-gradient(135deg, #667eea 0%, #764ba2 100%);\n            color: white;\n            padding: 15px 20px;\n            cursor: pointer;\n            display: flex;\n            justify-content: space-between;\n            align-items: center;\n            user-select: none;\n        \x7d\n        \n        .section-header:hover \x7b\n            background: linear-gradient(135deg, #5568d3 0%, #65408b 100%);\n        \x7d\n        \n        .section-header h2 \x7b\n            margin: 0;\n            font-size: 20px;\n        \x7d\n        \n        .toggle-icon \x7b\n            font-size: 24px;\n            transition: transform 0.3s;\n        \x7d\n        \n        .section-header.collapsed .toggle-icon \x7b\n            transform: rotate(-90deg);\n        \x7d\n        \n        .section-content \x7b\n            padding: 20px;\n            background: #fafafa;\n            max-height: 5000px;\n            overflow: hidden;\n            transition: max-height 0.3s ease-out, padding 0.3s;\n        \x7d\n        \n        .section-content.collapsed \x7b\n            max-height: 0;\n            padding: 0 20px;\n        \x7d\n        \n        .section-content h3 \x7b\n            color: #667eea;\n            margin-top: 20px;\n            margin-bottom: 10px;\n        \x7d\n        \n        .section-content h4 \x7b\n            color: #764ba2;\n            margin-top: 15px;\n            margin-bottom: 8px;\n        \x7d\n        \n        .section-content ul \x7b\n            margin-left: 20px;\n            margin-bottom: 15px;\n        \x7d\n        \n        .section-content li \x7b\n            margin-bottom: 8px;\n        \x7d\n        \n        .section-content p \x7b\n            margin-bottom: 15px;\n        \x7d\n        \n        .section-content table \x7b\n            width: 100%;\n            border-collapse: collapse;\n            margin: 15px 0;\n            background: white;\n            box-shadow: 0 1px 3px rgba(0,0,0,0.1);\n            overflow-x: auto;\n            display: block;\n        \x7d\n        \n        .section-content th \x7b\n            background: linear-gradient(135deg, #667eea 0%, #764ba2 100%);\n            color: white;\n            padding: 12px;\n            text-align: left;\n            font-weight: 600;\n        \x7d\n        \n        .section-content td \x7b\n            padding: 10px 12px;\n            border-bottom: 1px solid #e0e0e0;\n        \x7d\n        \n        .section-content tr:last-child td \x7b\n            border-bottom: none;\n        \x7d\n        \n        .section-content tr:hover \x7b\n            background: #f5f5f5;\n        \x7d\n        \n        .section-content code \x7b\n            background: #f4f4f4;\n            padding: 2px 6px;\n            border-radius: 3px;\n            font-family: \x27Monaco\x27, \x27Courier New\x27, monospace;\n            font-size: 0.9em;\n            color: #d63384;\n        \x7d\n        \n        .section-content pre \x7b\n            background: #2d2d2d;\n            color: #f8f8f2;\n            padding: 15px;\n            border-radius: 5px;\n            overflow-x: auto;\n            margin: 15px 0;\n        \x7d\n        \n        .section-content pre code \x7b\n            background: transparent;\n            padding: 0;\n            color: inherit;\n            font-size: 0.9em;\n        \x7d\n        \n        .badge \x7b\n            display: inline-block;\n            padding: 4px 12px;\n            border-radius: 12px;\n            font-size: 12px;\n            font-weight: 600;\n            margin-right: 8px;\n        \x7d\n        \n        .badge-ba \x7b\n            background: #e3f2fd;\n            color: #1976d2;\n        \x7d\n        \n        .badge-architect \x7b\n            background: #f3e5f5;\n            color: #7b1fa2;\n        \x7d\n        \n        .badge-qa \x7b\n            background: #fff3e0;\n            color: #e65100;\n        \x7d\n        \n        .badge-synthesis \x7b\n            background: #f3e5f5;\n            color: #6a1b9a;\n        \x7d\n        \n        .badge-pm \x7b\n            background: #e8f5e9;\n            color: #2e7d32;\n        \x7d\n    </style>\n</head>\n<body>\n    <div class=\"container\">\n        <h1>ProjectForge Analysis</h1>\n        <div class=\"timestamp\">Generated: "

/-- Literal fragment 2 of the f-string of templates.py lines 20-294. -/
def htmlPart2 : String :=
  "</div>\n        \n        <div class=\"section\">\n            <div class=\"section-header\" onclick=\"toggleSection(this)\">\n                <h2><span class=\"badge badge-ba\">BA</span>Business Requirements</h2>\n                <span class=\"toggle-icon\">▼</span>\n            </div>\n            <div class=\"section-content\">\n                "

/-- Literal fragment 3 of the f-string of templates.py lines 20-294. -/
def htmlPart3 : String :=
  "\n            </div>\n        </div>\n        \n        <div class=\"section\">\n            <div class=\"section-header\" onclick=\"toggleSection(this)\">\n                <h2><span class=\"badge badge-architect\">Architect</span>Technical Design</h2>\n                <span class=\"toggle-icon\">▼</span>\n            </div>\n            <div class=\"section-content\">\n                "

/-- Literal fragment 4 of the f-string of templates.py lines 20-294. -/
def htmlPart4 : String :=
  "\n            </div>\n        </div>\n        \n        <div class=\"section\">\n            <div class=\"section-header\" onclick=\"toggleSection(this)\">\n                <h2><span class=\"badge badge-qa\">QA</span>Risk Assessment</h2>\n                <span class=\"toggle-icon\">▼</span>\n            </div>\n            <div class=\"section-content\">\n                "

/-- Literal fragment 5 of the f-string of templates.py lines 20-294. -/
def htmlPart5 : String :=
  "\n            </div>\n        </div>\n        \n        <div class=\"section\">\n            <div class=\"section-header\" onclick=\"toggleSection(this)\">\n                <h2><span class=\"badge badge-synthesis\">Synthesis</span>Technical Summary</h2>\n                <span class=\"toggle-icon\">▼</span>\n            </div>\n            <div class=\"section-content\">\n                "

/-- Literal fragment 6 of the f-string of templates.py lines 20-294. -/
def htmlPart6 : String :=
  "\n            </div>\n        </div>\n        \n        <div class=\"section\">\n            <div class=\"section-header\" onclick=\"toggleSection(this)\">\n                <h2><span class=\"badge badge-pm\">PM</span>Executive Summary & Roadmap</h2>\n                <span class=\"toggle-icon\">▼</span>\n            </div>\n            <div class=\"section-content\">\n                "

/-- Literal fragment 7 of the f-string of templates.py lines 20-294. -/
def htmlPart7 : String :=
  "\n            </div>\n        </div>\n    </div>\n    \n    <script>\n        function toggleSection(header) \x7b\n            const content = header.nextElementSibling;\n            header.classList.toggle(\x27collapsed\x27);\n            content.classList.toggle(\x27collapsed\x27);\n        \x7d\n    </script>\n</body>\n</html>\n"

/-- `generate_html_template` (templates.py lines 6-294).  The `now` parameter
is the rendering of `datetime.now().strftime('%B %d, %Y at %I:%M %p')` at
line 232 (the clock is an input of the embedding); the remaining parameters
are the source's. -/
def generate_html_template (now timestamp ba_html architect_html qa_html
    synthesis_html pm_html : String) : String :=
  htmlPart0 ++ timestamp ++ htmlPart1 ++ now ++ htmlPart2 ++ ba_html ++
    htmlPart3 ++ architect_html ++ htmlPart4 ++ qa_html ++ htmlPart5 ++
    synthesis_html ++ htmlPart6 ++ pm_html ++ htmlPart7

/-! ## The pipeline definition (tasks/workflows.py) -/

/-- A `crewai.Task` as built by `create_tasks`: prompt description, expected
output contract, the agent, and the context dependencies given as indices into
the returned task list. -/
structure PipelineTask where
  description : String
  expected : String
  agent : Agent
  context : List Nat

/-- `create_agents` (agents/team.py lines 6-57), reduced to the role strings
that extraction reads; goals, backstories and the llm handle are prompt
content outside the modelled core.  The `llm` argument is kept for the
signature. -/
def create_agents (llm : String) : Agent × Agent × Agent × Agent × Agent :=
  (⟨"Requirements Intake Specialist"⟩, ⟨"Technical Architect"⟩,
   ⟨"Senior Quality Auditor"⟩, ⟨"Technical Synthesizer"⟩, ⟨"Project Manager"⟩)

/-- `create_tasks` (tasks/workflows.py lines 6-61).  NOTE: the source function
accepts exactly two parameters, `(user_input, agents)` — there is no
`interactive_mode` parameter. -/
def create_tasks (user_input : String)
    (agents : Agent × Agent × Agent × Agent × Agent) : List PipelineTask :=
  let (intake_specialist, tech_architect, quality_auditor, context_synthesizer,
       project_manager) := agents
  let task1 : PipelineTask :=
    { description := "Analyze this project idea: \x27" ++ user_input ++ "\x27",
      expected := "A list of 3 priority features with business justifications. Use standard Markdown formatting. Do not use tables.",
      agent := intake_specialist, context := [] }
  let task2 : PipelineTask :=
    { description := "Create the technical requirements (Schema, APIs) for the features identified.",
      expected := "A technical brief with Database Schema, API Endpoints, and Integrations. Format the database schema using nested markdown bullet points. Format API endpoints using bold text and code blocks (```json) for payloads. Do not use markdown tables.",
      agent := tech_architect, context := [0] }
  let task3 : PipelineTask :=
    { description := "Review the technical brief from the Architect. \n        Find 3 potential \x27Edge Cases\x27 or \x27Risks\x27 the Architect missed (e.g., Privacy, Offline Mode, Data Validation).",
      expected := "A \x27Risk Assessment\x27 report with 3 critical gaps and suggested fixes.",
      agent := quality_auditor, context := [1] }
  let synthesis_task : PipelineTask :=
    { description := "Synthesize the technical architecture and risk assessment into a concise 1-page executive summary.\n        Extract only the most critical technical decisions, architecture choices, and risk mitigation strategies.\n        Focus on business-relevant information that a PM needs to create a roadmap.",
      expected := "A strict 1-page summary with: (1) Key technical architecture decisions in bullet points, (2) Top 3 critical risks with mitigation strategies, (3) Integration dependencies. Use clear, non-technical language.",
      agent := context_synthesizer, context := [1, 2] }
  let task4 : PipelineTask :=
    { description := "Create an executive summary with:\n        1. Project overview (1 paragraph)\n        2. Key features prioritized by effort vs impact\n        3. Critical risks and mitigation strategies\n        4. Recommended sprint breakdown (2-week sprints)\n        5. Success metrics",
      expected := "Executive summary with sprint plan and success criteria. Output the roadmap using standard H2 and H3 markdown headers. If comparing features, use a markdown table.",
      agent := project_manager, context := [0, 3] }
  [task1, task2, task3, synthesis_task, task4]

/-! ## The workflow runner (core.py lines 18-127) -/

/-- The sentinel substituted at core.py lines 104-108 and main.py lines 100-104. -/
def sentinel : String := "[Task did not complete]"

/-- Python `d.get(k)` on a dict whose values are optional strings: `None` when
the key is absent, otherwise the stored value (which may itself be `None`). -/
def pyGet (d : List (String × Option String)) (k : String) : Option String :=
  (d.lookup k).join

/-- Python `x or default` where `x` is `None` or a string: `None` and the empty
string are falsy and yield the default. -/
def pyOr (x : Option String) (dflt : String) : String :=
  match x with
  | none => dflt
  | some s => if s == "" then dflt else s

/-- The five per-stage output strings of `result['outputs']` after the
substitution at core.py lines 104-108. -/
structure StageOutputs where
  intake : String
  architect : String
  quality : String
  synthesis : String
  manager : String
deriving DecidableEq

/-- core.py lines 104-108: `outputs.get(key) or "[Task did not complete]"`
for each of the five keys. -/
def applySentinel (outputs : List (String × Option String)) : StageOutputs :=
  { intake := pyOr (pyGet outputs "intake") sentinel,
    architect := pyOr (pyGet outputs "architect") sentinel,
    quality := pyOr (pyGet outputs "quality") sentinel,
    synthesis := pyOr (pyGet outputs "synthesis") sentinel,
    manager := pyOr (pyGet outputs "manager") sentinel }

/-- The behaviour the external orchestration engine would exhibit if invoked:
what `kickoff()` would return or raise (the raise rendered as
`f"{type(e).__name__}: {str(e)}"`), and the state the task records would be in
afterwards. -/
structure EngineSpec where
  kickoff : Except String String
  tasksAfter : List TaskRec

/-- The `WorkflowResult` dict returned by `run_analysis_workflow`
(core.py lines 33-47; `raw_result` is always `None` here, see
`run_analysis_workflow`). -/
structure WorkflowResult where
  success : Bool
  outputs : StageOutputs
  html_content : String
  timestamp : String
  error : Option String

/-- The stringification `f"{type(e).__name__}: {str(e)}"` (core.py line 97) of
the `TypeError` raised at core.py line 81: `create_tasks` is called there with
three arguments, `create_tasks(user_input, agents, interactive_mode)`, but its
definition (tasks/workflows.py line 6) accepts two. -/
def typeErrorMsg : String :=
  "TypeError: create_tasks() takes 2 positional arguments but 3 were given"

/-- The HTML-generation try block of core.py lines 110-122: convert the five
substituted texts in order; the first conversion failure yields the pair of
the initial `''` html value and the overwritten error field
`"HTML generation failed: ..."`; full success yields the rendered template and
leaves the error field as recorded by the earlier except-arm
(`workflow_error`, threaded in as `errorSoFar`). -/
def htmlStepFn (mdConvert : String → Except String String)
    (nowPretty timestamp : String) (outs : StageOutputs)
    (errorSoFar : Option String) : String × Option String :=
  match mdConvert outs.intake with
  | .error e => ("", some ("HTML generation failed: " ++ e))
  | .ok ba_html =>
    match mdConvert outs.architect with
    | .error e => ("", some ("HTML generation failed: " ++ e))
    | .ok architect_html =>
      match mdConvert outs.quality with
      | .error e => ("", some ("HTML generation failed: " ++ e))
      | .ok qa_html =>
        match mdConvert outs.synthesis with
        | .error e => ("", some ("HTML generation failed: " ++ e))
        | .ok synthesis_html =>
          match mdConvert outs.manager with
          | .error e => ("", some ("HTML generation failed: " ++ e))
          | .ok pm_html =>
            (generate_html_template nowPretty timestamp ba_html
               architect_html qa_html synthesis_html pm_html,
             errorSoFar)

/-- `run_analysis_workflow` (core.py lines 18-127).

The try block (lines 72-97) constructs the LLM handle and the agents, then at
line 81 calls `create_tasks(user_input, agents, interactive_mode)`; since
`create_tasks` accepts two parameters, this raises `TypeError` on every
invocation, before the crew is built and before the engine's `kickoff` is
reached.  The `except` arm records the stringified error; `tasks` keeps its
line-70 initialization `[]`, and `raw_result` stays `None`.  The engine
behaviour is a parameter of the embedding but is never consulted.

The finally block (lines 99-125) extracts outputs (`if tasks` is false for the
empty list, so the dict stays `{}`), substitutes the sentinel, converts the
five texts to HTML (the external markdown converter is the `mdConvert`
parameter: its exception message or its HTML result) and renders the template;
an HTML-generation failure overwrites `result['error']` with
`f"HTML generation failed: {str(html_error)}"`.  `success` is set to
`workflow_error is None`.  The `timestamp` parameter is the line-50 rendering
of the clock, `nowPretty` the rendering used inside the template. -/
def run_analysis_workflow (mdConvert : String → Except String String)
    (engine : EngineSpec) (user_input llm_model api_key : String)
    (interactive_mode : Bool) (timestamp nowPretty : String) : WorkflowResult :=
  let workflow_error : Option String := some typeErrorMsg
  let tasks : List TaskRec := []
  let outputs : List (String × Option String) :=
    if tasks.isEmpty then []
    else (match extract_task_outputs_safe tasks with
          | .ok d => d
          | .error _ => [])  -- unreachable: tasks is empty
  let outs : StageOutputs := applySentinel outputs
  let htmlStep : String × Option String :=
    htmlStepFn mdConvert nowPretty timestamp outs workflow_error
  { success := workflow_error.isNone,
    outputs := outs,
    html_content := htmlStep.1,
    timestamp := timestamp,
    error := htmlStep.2 }

/-! ## Key-set bookkeeping for the extraction proofs -/

/-- Append a key to a duplicate-free key list unless already present: the effect
of one dict assignment on the key set. -/
def addKey (ks : List String) (k : String) : List String :=
  if listHas ks k then ks else ks ++ [k]

/-- Fold `addKey` over a list of keys: the key set of a dict built by repeated
assignment, in first-occurrence order. -/
def addKeys (ks ms : List String) : List String := ms.foldl addKey ks

/-- The short keys matched by the records of a task list, in record order:
one entry per record with a non-absent agent whose role contains some registry
role name (the first such registry entry, in registry order). -/
def matchedKeys : List TaskRec → List String
  | [] => []
  | t :: ts =>
    match t.agent with
    | none => matchedKeys ts
    | some a =>
      match matchEntry a.role with
      | none => matchedKeys ts
      | some p => p.2 :: matchedKeys ts

/-- `readsOk tasks` holds when every record that the extraction loop attributes
to a registry key has a readable output (its access does not raise). -/
def readsOk : List TaskRec → Bool
  | [] => true
  | t :: ts =>
    (match t.agent with
     | none => true
     | some a =>
       match matchEntry a.role with
       | none => true
       | some _ => (readOutput t.output).isOk) && readsOk ts

/-! ## Concrete fixtures for the claim theorems, witnesses and counterexamples -/

/-- A markdown converter that succeeds on every input (identity rendering). -/
def mdId : String → Except String String := fun s => .ok s

/-- A markdown converter whose conversion raises on every input. -/
def mdFail : String → Except String String := fun _ => .error "converter exploded"

/-- An engine whose `kickoff` would return a final result without raising. -/
def engineOk : EngineSpec := ⟨.ok "final plan", []⟩

/-- An engine whose `kickoff` would raise after the first two stages completed:
the first two records carry real text, the remaining three have `None` outputs. -/
def engineRaisesAfter2 : EngineSpec :=
  { kickoff := .error "RuntimeError: LLM provider unavailable",
    tasksAfter :=
      [⟨some ⟨"Requirements Intake Specialist"⟩, .withRaw "Feature list with justifications"⟩,
       ⟨some ⟨"Technical Architect"⟩, .withRaw "Technical brief"⟩,
       ⟨some ⟨"Senior Quality Auditor"⟩, .nothing⟩,
       ⟨some ⟨"Technical Synthesizer"⟩, .nothing⟩,
       ⟨some ⟨"Project Manager"⟩, .nothing⟩] }

/-- An engine fixture for the HTML-failure scenario. -/
def engineIdle : EngineSpec := ⟨.ok "", []⟩

/-- A record matching the manager role whose output access raises a
non-`ValueError` exception. -/
def taskPMRaises : TaskRec := ⟨some ⟨"Project Manager"⟩, .raises .other⟩

/-- A record matching the architect role whose output access raises a
non-`ValueError` exception. -/
def taskArchRaises : TaskRec := ⟨some ⟨"Technical Architect"⟩, .raises .other⟩

/-- Whether a strict-extraction outcome is the missing-roles `ValueError`. -/
def isMissingRolesErr : Except PyExc (List (String × String)) → Bool
  | .error (.missingRoles _ _) => true
  | _ => false

/-- A single record matching the intake role, with readable output. -/
def tasksIntakeOnly : List TaskRec :=
  [⟨some ⟨"Requirements Intake Specialist"⟩, .withRaw "Features"⟩]

/-- Five records, one per role, all readable, the quality stage having produced
the empty string. -/
def tasksAllDone : List TaskRec :=
  [⟨some ⟨"Requirements Intake Specialist"⟩, .withRaw "Features"⟩,
   ⟨some ⟨"Technical Architect"⟩, .withRaw "Design"⟩,
   ⟨some ⟨"Senior Quality Auditor"⟩, .withRaw ""⟩,
   ⟨some ⟨"Technical Synthesizer"⟩, .withRaw "Summary"⟩,
   ⟨some ⟨"Project Manager"⟩, .withRaw "Roadmap"⟩]

/-- The extraction result for `tasksAllDone`. -/
def extractedAllDone : List (String × Option String) :=
  [("intake", some "Features"), ("architect", some "Design"), ("quality", some ""),
   ("synthesis", some "Summary"), ("manager", some "Roadmap")]

/-- A declared role string that strictly contains the registered quality role
name (not an exact match). -/
def roleQA : String := "The Senior Quality Auditor of the team"

/-- The converter behaviour when weasyprint is not installed: every conversion
attempt fails with `ImportError`. -/
def weasyprintMissing : String → PdfOutcome := fun _ => .importError


lemma listHas_append (xs : List String) (m k : String) :
    listHas (xs ++ [m]) k = (listHas xs k || (k == m)) := by
  induction xs with
  | nil => simp [listHas]
  | cons x t ih => simp [listHas, ih, Bool.or_assoc]

lemma dictSet_keys {α : Type} (d : List (String × α)) (k : String) (v : α) :
    (dictSet d k v).map Prod.fst = addKey (d.map Prod.fst) k := by
  induction d with
  | nil => simp [dictSet, addKey, listHas]
  | cons p rest ih =>
    obtain ⟨k', v'⟩ := p
    by_cases hk : k' = k
    · subst hk
      simp [dictSet, addKey, listHas]
    · have hk1 : (k' == k) = false := by simp [hk]
      have hk2 : (k == k') = false := by simp [Ne.symm hk]
      by_cases hm : listHas (rest.map Prod.fst) k = true
      · simp [dictSet, hk1, ih, addKey, listHas, hk2, hm]
      · have hm' : listHas (rest.map Prod.fst) k = false := by
          cases h : listHas (rest.map Prod.fst) k
          · rfl
          · exact absurd h hm
        simp [dictSet, hk1, ih, addKey, listHas, hk2, hm']

lemma addKey_has (ks : List String) (m k : String) :
    listHas (addKey ks m) k = (listHas ks k || (k == m)) := by
  unfold addKey
  by_cases hm : listHas ks m = true
  · simp [hm]
    by_cases hkm : k = m
    · subst hkm
      simp [hm]
    · simp [hkm]
  · have hm' : listHas ks m = false := by
      cases h : listHas ks m
      · rfl
      · exact absurd h hm
    simp [hm', listHas_append]

lemma addKeys_has (ms : List String) (ks : List String) (k : String) :
    listHas (addKeys ks ms) k = (listHas ks k || listHas ms k) := by
  induction ms generalizing ks with
  | nil => simp [addKeys, listHas]
  | cons m t ih =>
    show listHas (addKeys (addKey ks m) t) k = _
    rw [ih, addKey_has]
    simp [listHas, Bool.or_assoc]

lemma strictLoop_ok (tasks : List TaskRec) (h : readsOk tasks = true) :
    ∀ acc : List (String × String), ∃ d, strictLoop tasks acc = .ok d ∧
      d.map Prod.fst = addKeys (acc.map Prod.fst) (matchedKeys tasks) := by
  induction tasks with
  | nil =>
    intro acc
    exact ⟨acc, rfl, by simp [matchedKeys, addKeys]⟩
  | cons t ts ih =>
    intro acc
    rw [readsOk, Bool.and_eq_true] at h
    obtain ⟨h1, h2⟩ := h
    cases hag : t.agent with
    | none =>
      obtain ⟨d, hd, hk⟩ := ih h2 acc
      refine ⟨d, ?_, ?_⟩
      · simp only [strictLoop, hag]; exact hd
      · simp only [matchedKeys, hag]; exact hk
    | some a =>
      cases hme : matchEntry a.role with
      | none =>
        obtain ⟨d, hd, hk⟩ := ih h2 acc
        refine ⟨d, ?_, ?_⟩
        · simp only [strictLoop, hag, hme]; exact hd
        · simp only [matchedKeys, hag, hme]; exact hk
      | some p =>
        simp only [hag, hme] at h1
        cases hro : readOutput t.output with
        | error k => rw [hro] at h1; simp [Except.isOk, Except.toBool] at h1
        | ok s =>
          obtain ⟨d, hd, hk⟩ := ih h2 (dictSet acc p.2 s)
          refine ⟨d, ?_, ?_⟩
          · simp only [strictLoop, hag, hme, hro]; exact hd
          · simp only [matchedKeys, hag, hme]
            rw [hk, dictSet_keys]
            rfl

/-! ## Claim theorems -/

/-- C1: the claim states that safe extraction never raises, for every record
list including records whose output access raises.  The code violates it
(contradicting the function's own "no exceptions" docstring): a matching
record whose output read raises a non-`ValueError` exception makes the
initial strict pass raise, `except ValueError` does not catch it, and
`extract_task_outputs_safe` propagates the exception instead of returning
the five-key mapping.  This theorem evaluates the code at such an input. -/
theorem safe_extraction_raises_on_unreadable_output :
    extract_task_outputs_safe [taskPMRaises] = .error (.readExc .other) := rfl

/-- C2 counterexample: on a record list whose only record matches the
architect key but whose output read raises a non-`ValueError` exception,
four required keys have no matching record, yet strict extraction does not
raise the missing-roles error (the read exception preempts it), refuting the
claimed equivalence as stated. -/
theorem strict_missing_iff_cex :
    isMissingRolesErr (extract_task_outputs_by_role [taskArchRaises]) = false ∧
    requiredKeys.filter (fun k => !(listHas (matchedKeys [taskArchRaises]) k)) ≠ [] :=
  ⟨rfl, by decide⟩

/-- C2 (amended): provided every record attributed to a registry key has a
readable output, strict extraction raises the missing-roles error exactly
when some required key has no matching record; the raised error carries
exactly the missing keys (the required keys without a matching record, in
registry order) and the found keys (the matched keys, first occurrences in
record order, whose membership coincides with the matched-key set). -/
theorem strict_missing_iff (tasks : List TaskRec) (h : readsOk tasks = true) :
    (requiredKeys.filter (fun k => !(listHas (matchedKeys tasks) k)) = [] →
      ∃ d, extract_task_outputs_by_role tasks = .ok d) ∧
    (requiredKeys.filter (fun k => !(listHas (matchedKeys tasks) k)) ≠ [] →
      extract_task_outputs_by_role tasks =
        .error (.missingRoles
          (requiredKeys.filter (fun k => !(listHas (matchedKeys tasks) k)))
          (addKeys [] (matchedKeys tasks)))) ∧
    (∀ k, listHas (addKeys [] (matchedKeys tasks)) k = listHas (matchedKeys tasks) k) := by
  obtain ⟨d, hd, hk⟩ := strictLoop_ok tasks h []
  have hkk : d.map Prod.fst = addKeys [] (matchedKeys tasks) := by
    rw [hk]; rfl
  have h3 : ∀ k, listHas (addKeys [] (matchedKeys tasks)) k
      = listHas (matchedKeys tasks) k := by
    intro k
    rw [addKeys_has]
    simp [listHas]
  have hfilter2 : requiredKeys.filter (fun r => !(listHas (addKeys [] (matchedKeys tasks)) r))
      = requiredKeys.filter (fun k => !(listHas (matchedKeys tasks) k)) :=
    List.filter_congr (fun a _ => by rw [h3])
  refine ⟨?_, ?_, h3⟩
  · intro hempty
    refine ⟨d, ?_⟩
    simp only [extract_task_outputs_by_role, hd, hkk, hfilter2, hempty, List.isEmpty_nil,
      if_true]
  · intro hne
    have hno : (requiredKeys.filter (fun k => !(listHas (matchedKeys tasks) k))).isEmpty
        = false := by
      cases hc : requiredKeys.filter (fun k => !(listHas (matchedKeys tasks) k)) with
      | nil => exact absurd hc hne
      | cons x t => rfl
    simp only [extract_task_outputs_by_role, hd, hkk, hfilter2, hno, Bool.false_eq_true,
      if_false]

/-- Witness for `strict_missing_iff`: a single readable intake record; four
keys are missing and strict extraction raises the missing-roles error naming
exactly those four, with found set `{intake}`. -/
theorem strict_missing_iff_witness :
    readsOk tasksIntakeOnly = true ∧
    extract_task_outputs_by_role tasksIntakeOnly =
      .error (.missingRoles ["architect", "quality", "synthesis", "manager"] ["intake"]) := by
  refine ⟨rfl, ?_⟩
  have H := (strict_missing_iff tasksIntakeOnly rfl).2.1 (by decide)
  rw [H]
  rfl

/-- C3: the claim states that `run_analysis_workflow` always extracts and
renders and that `success` is true exactly when the engine raised no
exception.  The code violates it: core.py line 81 calls `create_tasks` with
three arguments while its definition takes two, so a `TypeError` is raised
on every run before the engine is consulted; with an engine that would not
raise, `success` is still false, the error field holds the `TypeError`, and
extraction is skipped (all five outputs are the sentinel). -/
theorem run_workflow_always_fails :
    (run_analysis_workflow mdId engineOk "We need a carbon tracking app"
        "gemini/gemini-2.5-flash" "KEY" false "20260101_000000"
        "January 01, 2026 at 12:00 AM").success = false ∧
    (run_analysis_workflow mdId engineOk "We need a carbon tracking app"
        "gemini/gemini-2.5-flash" "KEY" false "20260101_000000"
        "January 01, 2026 at 12:00 AM").error = some typeErrorMsg ∧
    (run_analysis_workflow mdId engineOk "We need a carbon tracking app"
        "gemini/gemini-2.5-flash" "KEY" false "20260101_000000"
        "January 01, 2026 at 12:00 AM").outputs
      = ⟨sentinel, sentinel, sentinel, sentinel, sentinel⟩ ∧
    engineOk.kickoff = .ok "final plan" :=
  ⟨rfl, rfl, rfl, rfl⟩

/-- C4: the claim states that when the engine raises after two completed
stages, the result keeps the two completed texts and reports the engine
exception.  The code violates it: the `TypeError` from the miscalled
`create_tasks` prevents the engine from ever running, the task list stays
empty, all five outputs are the sentinel (the completed texts are lost),
and the error field holds the `TypeError`, not the engine exception. -/
theorem run_workflow_drops_completed_stage_text :
    (run_analysis_workflow mdId engineRaisesAfter2 "Build a CRM"
        "gemini/gemini-2.5-flash" "KEY" false "20260101_000000"
        "January 01, 2026 at 12:00 AM").outputs
      = ⟨sentinel, sentinel, sentinel, sentinel, sentinel⟩ ∧
    (run_analysis_workflow mdId engineRaisesAfter2 "Build a CRM"
        "gemini/gemini-2.5-flash" "KEY" false "20260101_000000"
        "January 01, 2026 at 12:00 AM").error = some typeErrorMsg ∧
    (run_analysis_workflow mdId engineRaisesAfter2 "Build a CRM"
        "gemini/gemini-2.5-flash" "KEY" false "20260101_000000"
        "January 01, 2026 at 12:00 AM").success = false ∧
    engineRaisesAfter2.kickoff = .error "RuntimeError: LLM provider unavailable" ∧
    (engineRaisesAfter2.tasksAfter.map TaskRec.output).take 2
      = [.withRaw "Feature list with justifications", .withRaw "Technical brief"] :=
  ⟨rfl, rfl, rfl, rfl, rfl⟩

lemma find?_cons_pos {α : Type} (p : α → Bool) (x : α) (l : List α) (h : p x = true) :
    List.find? p (x :: l) = some x := by
  simp [List.find?_cons, h]

lemma find?_cons_neg {α : Type} (p : α → Bool) (x : α) (l : List α) (h : p x = false) :
    List.find? p (x :: l) = List.find? p l := by
  simp [List.find?_cons, h]

lemma safe_single_record (a s full key : String)
    (hm : matchEntry a = some (full, key))
    (hmiss : (requiredKeys.filter (fun r => !(listHas [key] r))).isEmpty = false) :
    extract_task_outputs_safe [⟨some ⟨a⟩, .withRaw s⟩]
      = .ok (dictSet initOutputs key (some s)) := by
  have hstrict : extract_task_outputs_by_role [⟨some ⟨a⟩, .withRaw s⟩]
      = .error (.missingRoles
          (requiredKeys.filter (fun r => !(listHas [key] r))) [key]) := by
    simp only [extract_task_outputs_by_role, strictLoop, hm, readOutput, dictSet,
      List.map_cons, List.map_nil, hmiss, Bool.false_eq_true, if_false]
  simp only [extract_task_outputs_safe, hstrict, PyExc.isValueError, if_true,
    fallbackLoop, hm, readOutput]

/-- C5: role matching is substring-based and first-match-wins: for any
declared role string whose first matching registry entry (in registry order)
is the `i`-th one, a record with that role and readable output is attributed
to exactly that entry's short key by the extractor. -/
theorem extraction_substring_first_match (a s : String) (i : Nat)
    (hi : i < role_mapping.length)
    (hmatch : containsSub a (role_mapping.get ⟨i, hi⟩).1 = true)
    (hfirst : ∀ p ∈ role_mapping.take i, containsSub a p.1 = false) :
    matchEntry a = some (role_mapping.get ⟨i, hi⟩) ∧
    ∃ d, extract_task_outputs_safe [⟨some ⟨a⟩, .withRaw s⟩] = .ok d ∧
      d.lookup (role_mapping.get ⟨i, hi⟩).2 = some (some s) := by
  have hi5 : i < 5 := by simpa [role_mapping] using hi
  interval_cases i
  · have hp : (fun q : String × String => containsSub a q.1)
        ("Requirements Intake Specialist", "intake") = true := hmatch
    have hm : matchEntry a = some ("Requirements Intake Specialist", "intake") := by
      unfold matchEntry role_mapping
      rw [find?_cons_pos (fun q : String × String => containsSub a q.1) ("Requirements Intake Specialist", "intake") _ hp]
    exact ⟨hm, _, safe_single_record a s _ _ hm (by decide), rfl⟩
  · have h0 : (fun q : String × String => containsSub a q.1)
        ("Requirements Intake Specialist", "intake") = false :=
      hfirst ("Requirements Intake Specialist", "intake") (by decide)
    have hp : (fun q : String × String => containsSub a q.1)
        ("Technical Architect", "architect") = true := hmatch
    have hm : matchEntry a = some ("Technical Architect", "architect") := by
      unfold matchEntry role_mapping
      rw [find?_cons_neg (fun q : String × String => containsSub a q.1) ("Requirements Intake Specialist", "intake") _ h0, find?_cons_pos (fun q : String × String => containsSub a q.1) ("Technical Architect", "architect") _ hp]
    exact ⟨hm, _, safe_single_record a s _ _ hm (by decide), rfl⟩
  · have h0 : (fun q : String × String => containsSub a q.1)
        ("Requirements Intake Specialist", "intake") = false :=
      hfirst ("Requirements Intake Specialist", "intake") (by decide)
    have h1 : (fun q : String × String => containsSub a q.1)
        ("Technical Architect", "architect") = false :=
      hfirst ("Technical Architect", "architect") (by decide)
    have hp : (fun q : String × String => containsSub a q.1)
        ("Senior Quality Auditor", "quality") = true := hmatch
    have hm : matchEntry a = some ("Senior Quality Auditor", "quality") := by
      unfold matchEntry role_mapping
      rw [find?_cons_neg (fun q : String × String => containsSub a q.1) ("Requirements Intake Specialist", "intake") _ h0, find?_cons_neg (fun q : String × String => containsSub a q.1) ("Technical Architect", "architect") _ h1, find?_cons_pos (fun q : String × String => containsSub a q.1) ("Senior Quality Auditor", "quality") _ hp]
    exact ⟨hm, _, safe_single_record a s _ _ hm (by decide), rfl⟩
  · have h0 : (fun q : String × String => containsSub a q.1)
        ("Requirements Intake Specialist", "intake") = false :=
      hfirst ("Requirements Intake Specialist", "intake") (by decide)
    have h1 : (fun q : String × String => containsSub a q.1)
        ("Technical Architect", "architect") = false :=
      hfirst ("Technical Architect", "architect") (by decide)
    have h2 : (fun q : String × String => containsSub a q.1)
        ("Senior Quality Auditor", "quality") = false :=
      hfirst ("Senior Quality Auditor", "quality") (by decide)
    have hp : (fun q : String × String => containsSub a q.1)
        ("Technical Synthesizer", "synthesis") = true := hmatch
    have hm : matchEntry a = some ("Technical Synthesizer", "synthesis") := by
      unfold matchEntry role_mapping
      rw [find?_cons_neg (fun q : String × String => containsSub a q.1) ("Requirements Intake Specialist", "intake") _ h0, find?_cons_neg (fun q : String × String => containsSub a q.1) ("Technical Architect", "architect") _ h1, find?_cons_neg (fun q : String × String => containsSub a q.1) ("Senior Quality Auditor", "quality") _ h2,
        find?_cons_pos (fun q : String × String => containsSub a q.1) ("Technical Synthesizer", "synthesis") _ hp]
    exact ⟨hm, _, safe_single_record a s _ _ hm (by decide), rfl⟩
  · have h0 : (fun q : String × String => containsSub a q.1)
        ("Requirements Intake Specialist", "intake") = false :=
      hfirst ("Requirements Intake Specialist", "intake") (by decide)
    have h1 : (fun q : String × String => containsSub a q.1)
        ("Technical Architect", "architect") = false :=
      hfirst ("Technical Architect", "architect") (by decide)
    have h2 : (fun q : String × String => containsSub a q.1)
        ("Senior Quality Auditor", "quality") = false :=
      hfirst ("Senior Quality Auditor", "quality") (by decide)
    have h3 : (fun q : String × String => containsSub a q.1)
        ("Technical Synthesizer", "synthesis") = false :=
      hfirst ("Technical Synthesizer", "synthesis") (by decide)
    have hm : matchEntry a = some ("Project Manager", "manager") := by
      unfold matchEntry role_mapping
      rw [find?_cons_neg (fun q : String × String => containsSub a q.1) ("Requirements Intake Specialist", "intake") _ h0, find?_cons_neg (fun q : String × String => containsSub a q.1) ("Technical Architect", "architect") _ h1, find?_cons_neg (fun q : String × String => containsSub a q.1) ("Senior Quality Auditor", "quality") _ h2,
        find?_cons_neg (fun q : String × String => containsSub a q.1) ("Technical Synthesizer", "synthesis") _ h3]
      exact find?_cons_pos (fun q : String × String => containsSub a q.1) ("Project Manager", "manager") _ hmatch
    exact ⟨hm, _, safe_single_record a s _ _ hm (by decide), rfl⟩

/-- Witness for `extraction_substring_first_match`: a role string that merely
contains "Senior Quality Auditor" is attributed to the `quality` key. -/
theorem extraction_substring_first_match_witness :
    matchEntry roleQA = some ("Senior Quality Auditor", "quality") ∧
    extract_task_outputs_safe [⟨some ⟨roleQA⟩, .withRaw "3 risks"⟩]
      = .ok [("intake", none), ("architect", none), ("quality", some "3 risks"),
             ("synthesis", none), ("manager", none)] := by
  have H := extraction_substring_first_match roleQA "3 risks" 2 (by decide) (by decide)
    (by decide)
  exact ⟨H.1, rfl⟩

/-- C6: the plain-text export concatenates the five section texts in the
fixed order Business Requirements, Technical Design, Risk Assessment,
Technical Synthesis, Executive Summary, each preceded by its section header;
the order is fixed by the function independently of how the texts were
extracted. -/
theorem text_export_fixed_order (now ts ui ba ar qa sy pm : String) :
    generate_text_content now ts ui ba ar qa sy pm =
      ("ProjectForge Analysis\n" ++ "Generated: " ++ now ++ "\n" ++ "Project: " ++ ui
        ++ "\n" ++ eqLine80 ++ "\n\n")
      ++ ("## Business Requirements\n\n" ++ ba ++ "\n\n")
      ++ ("## Technical Design\n\n" ++ ar ++ "\n\n")
      ++ ("## Risk Assessment\n\n" ++ qa ++ "\n\n")
      ++ ("## Technical Synthesis\n\n" ++ sy ++ "\n\n")
      ++ ("## Executive Summary & Roadmap\n\n" ++ pm ++ "\n") := by
  simp only [generate_text_content, String.append_assoc]

/-- C7: a PDF conversion failure (converter unavailable, or any internal
error) is non-fatal: `generate_pdf_bytes` returns `none` and
`save_pdf_output` returns `false`; both embeddings are total functions, so
neither raises to the caller. -/
theorem pdf_failure_nonfatal (convert : String → PdfOutcome)
    (pdf_output_file html_content : String)
    (h : convert html_content = .importError ∨ convert html_content = .renderError) :
    generate_pdf_bytes convert html_content = none ∧
    save_pdf_output convert pdf_output_file html_content = false := by
  rcases h with h | h <;> simp [generate_pdf_bytes, save_pdf_output, h]

/-- Witness for `pdf_failure_nonfatal`: the missing-weasyprint converter. -/
theorem pdf_failure_nonfatal_witness :
    (weasyprintMissing "<html></html>" = .importError ∨
     weasyprintMissing "<html></html>" = .renderError) ∧
    generate_pdf_bytes weasyprintMissing "<html></html>" = none ∧
    save_pdf_output weasyprintMissing "output.pdf" "<html></html>" = false :=
  ⟨Or.inl rfl, pdf_failure_nonfatal weasyprintMissing "output.pdf" "<html></html>"
    (Or.inl rfl)⟩

/-- C8: rendering is deterministic on identical inputs: for a fixed timestamp
argument and fixed five section fragments there are strings `pre` and `post`,
not depending on the clock, such that the rendered document is
`pre ++ now ++ post` for every clock rendering `now`; hence two calls with
identical arguments produce byte-identical documents except for the live
"Generated:" value. -/
theorem html_render_deterministic (timestamp ba architect qa synthesis pm : String) :
    ∃ pre post : String, ∀ now : String,
      generate_html_template now timestamp ba architect qa synthesis pm
        = pre ++ now ++ post := by
  refine ⟨htmlPart0 ++ timestamp ++ htmlPart1,
    htmlPart2 ++ ba ++ htmlPart3 ++ architect ++ htmlPart4 ++ qa ++ htmlPart5
      ++ synthesis ++ htmlPart6 ++ pm ++ htmlPart7, fun now => ?_⟩
  simp only [generate_html_template, String.append_assoc]

/-- C9: the sentinel substitution of core.py lines 104-108 tests Python
truthiness, not absence: whenever safe extraction yields the empty string for
a key, the substituted report for that stage is the sentinel
"[Task did not complete]" rather than the empty text. -/
theorem empty_output_reported_as_sentinel (tasks : List TaskRec)
    (d : List (String × Option String))
    (h : extract_task_outputs_safe tasks = .ok d) :
    (pyGet d "intake" = some "" → (applySentinel d).intake = sentinel) ∧
    (pyGet d "architect" = some "" → (applySentinel d).architect = sentinel) ∧
    (pyGet d "quality" = some "" → (applySentinel d).quality = sentinel) ∧
    (pyGet d "synthesis" = some "" → (applySentinel d).synthesis = sentinel) ∧
    (pyGet d "manager" = some "" → (applySentinel d).manager = sentinel) := by
  refine ⟨fun hq => ?_, fun hq => ?_, fun hq => ?_, fun hq => ?_, fun hq => ?_⟩ <;>
    simp [applySentinel, hq, pyOr]

/-- Witness for `empty_output_reported_as_sentinel`: all five stages complete,
the quality stage with empty text; its reported output is the sentinel. -/
theorem empty_output_reported_as_sentinel_witness :
    extract_task_outputs_safe tasksAllDone = .ok extractedAllDone ∧
    pyGet extractedAllDone "quality" = some "" ∧
    (applySentinel extractedAllDone).quality = "[Task did not complete]" := by
  refine ⟨rfl, rfl, ?_⟩
  exact (empty_output_reported_as_sentinel tasksAllDone extractedAllDone rfl).2.2.1 rfl

lemma run_reduces (mdConvert : String → Except String String) (engine : EngineSpec)
    (user_input llm_model api_key : String) (interactive_mode : Bool)
    (timestamp nowPretty : String) :
    run_analysis_workflow mdConvert engine user_input llm_model api_key
        interactive_mode timestamp nowPretty =
      { success := false,
        outputs := ⟨sentinel, sentinel, sentinel, sentinel, sentinel⟩,
        html_content := (htmlStepFn mdConvert nowPretty timestamp
          ⟨sentinel, sentinel, sentinel, sentinel, sentinel⟩ (some typeErrorMsg)).1,
        timestamp := timestamp,
        error := (htmlStepFn mdConvert nowPretty timestamp
          ⟨sentinel, sentinel, sentinel, sentinel, sentinel⟩ (some typeErrorMsg)).2 } := rfl

/-- C10: if HTML generation raises inside `run_analysis_workflow`, the error
field of the returned result holds only the HTML-generation message, so the
error message recorded earlier in the run by the engine-failure handler
(here the `TypeError` from the miscalled `create_tasks`) is overwritten and
lost from the result. -/
theorem html_failure_overwrites_error (mdConvert : String → Except String String)
    (engine : EngineSpec) (user_input llm_model api_key : String)
    (interactive_mode : Bool) (timestamp nowPretty : String) (m : String)
    (h : mdConvert sentinel = .error m) :
    (run_analysis_workflow mdConvert engine user_input llm_model api_key
        interactive_mode timestamp nowPretty).error
      = some ("HTML generation failed: " ++ m) ∧
    ("HTML generation failed: " ++ m ≠ typeErrorMsg →
      (run_analysis_workflow mdConvert engine user_input llm_model api_key
          interactive_mode timestamp nowPretty).error ≠ some typeErrorMsg) := by
  rw [run_reduces]
  constructor
  · simp [htmlStepFn, h]
  · intro hne hcontra
    simp [htmlStepFn, h] at hcontra
    exact hne hcontra

/-- Witness for `html_failure_overwrites_error`: a converter that raises; the
result's error is the HTML-generation message, not the recorded `TypeError`. -/
theorem html_failure_overwrites_error_witness :
    mdFail sentinel = .error "converter exploded" ∧
    (run_analysis_workflow mdFail engineIdle "idea" "model" "key" false
        "20260101_000000" "January 01, 2026 at 12:00 AM").error
      = some ("HTML generation failed: " ++ "converter exploded") :=
  ⟨rfl, (html_failure_overwrites_error mdFail engineIdle "idea" "model" "key"
    false "20260101_000000" "January 01, 2026 at 12:00 AM" "converter exploded" rfl).1⟩

end ProjectForge
